import Mathlib

/-!
Shallow embedding of the adaptive forecasting pipeline of
`apps/ml-service/src/models/predict.py` (class `PredictionService`) and the
relevant endpoint logic of `apps/ml-service/src/main.py`.

Quantities and predictions are modelled over `ℚ`.  Python's `round(x, 1)` /
`round(x, 2)` (round-half-to-even) are modelled exactly over `ℚ`.
`np.std` returns a square root, which is irrational in general; the feature
record therefore stores the *variance* (`np.std` squared) in the fields
`usage_var_7d` / `usage_var_14d`.  Squaring is injective on non-negative
values, so two feature vectors built by the source agree exactly when the
corresponding records here agree; the source's fallback constant `5` for the
standard deviation is represented by the variance constant `25`.
-/

namespace Pharma

/-- Python's builtin `round` to an integer: round half to even. -/
def pyRound (x : ℚ) : ℤ :=
  let n := ⌊x⌋
  let f := x - n
  if f < 1/2 then n
  else if 1/2 < f then n + 1
  else if n % 2 = 0 then n else n + 1

/-- `round(x, 1)` from the source, modelled on `ℚ`. -/
def round1 (x : ℚ) : ℚ := pyRound (10 * x) / 10

/-- `round(x, 2)` from the source, modelled on `ℚ`. -/
def round2 (x : ℚ) : ℚ := pyRound (100 * x) / 100

/-- `np.mean`, with the convention `meanQ [] = 0` (the source guards the
empty case with `if recent_7_days else 0`, which coincides with `0/0 = 0`). -/
def meanQ (l : List ℚ) : ℚ := l.sum / l.length

/-- The square of `np.std` (population variance, `ddof = 0`). -/
def varQ (l : List ℚ) : ℚ := meanQ (l.map fun x => (x - meanQ l) ^ 2)

/-- `max lo (min hi x)`, the `max(lo, min(hi, x))` idiom of the source. -/
def clampQ (lo hi x : ℚ) : ℚ := max lo (min hi x)

/-- One row of the `inventory` usage ledger for one drug: `age` is the number
of days before the current date, `qty` is `quantity_used`.  Histories are
kept most-recent-first (the `ORDER BY date DESC` of every query). -/
structure UsageRecord where
  age : ℕ
  qty : ℚ
deriving DecidableEq, Repr

/-- `get_recent_usage(drug_id, days)`: rows with `date >= CURRENT_DATE -
days`, most recent first, `LIMIT days`. -/
def get_recent_usage (hist : List UsageRecord) (days : ℕ) : List ℚ :=
  ((hist.filter fun r => r.age ≤ days).map (·.qty)).take days

/-- The per-drug slice of `get_recent_usage_batch(days)`: same date filter,
most recent first, no `LIMIT`. -/
def get_recent_usage_batch (hist : List UsageRecord) (days : ℕ) : List ℚ :=
  (hist.filter fun r => r.age ≤ days).map (·.qty)

/-- A calendar date as consumed by the feature builder: Python's
`date.weekday()` (0 = Monday), `date.day`, `date.month`. -/
structure PyDate where
  weekday : Fin 7
  day : ℕ
  month : ℕ
deriving DecidableEq, Repr

/-- The fixed-shape feature record built by `prepare_features` and inline on
the batch paths.  `usage_var_7d` / `usage_var_14d` store the square of the
source's `usage_std_7d` / `usage_std_14d` (see the module comment). -/
structure Features where
  day_of_week : ℕ
  day_of_month : ℕ
  month : ℕ
  week_of_month : ℕ
  is_weekend : ℕ
  is_month_end : ℕ
  is_rainy_season : ℕ
  usage_lag_1 : ℚ
  usage_lag_3 : ℚ
  usage_lag_7 : ℚ
  usage_lag_14 : ℚ
  usage_mean_7d : ℚ
  usage_var_7d : ℚ
  usage_mean_14d : ℚ
  usage_var_14d : ℚ
  stock_level_ratio : ℚ
deriving DecidableEq, Repr

/-- The usage series used by `prepare_features`: the 14-day window, the
all-30s default when it is empty, otherwise padded to 14 entries with the
mean of the fetched values (`while len < 14: append(mean_usage)`). -/
def usage_values_single (hist : List UsageRecord) : List ℚ :=
  let u := get_recent_usage hist 14
  if u.isEmpty then List.replicate 14 30
  else u ++ List.replicate (14 - u.length) (meanQ u)

/-- The usage series prepared once per drug by `predict_all_drugs_adaptive`
from the 30-day batch window `w`: first 14 values, padded to 14 entries with
the mean of the *whole* window (`recent_usage['quantity_used'].mean()`). -/
def usage_values_batch (w : List ℚ) : List ℚ :=
  if w.isEmpty then List.replicate 14 30
  else w.take 14 ++ List.replicate (14 - (w.take 14).length) (meanQ w)

/-- The calendar-derived feature fields, shared verbatim by both paths. -/
def calendarWeekOfMonth (d : PyDate) : ℕ := (d.day - 1) / 7 + 1

/-- `prepare_features(drug_id, forecast_date)` of the single-entity path. -/
def prepare_features (hist : List UsageRecord) (d : PyDate) : Features :=
  let u := usage_values_single hist
  { day_of_week := d.weekday.val
    day_of_month := d.day
    month := d.month
    week_of_month := calendarWeekOfMonth d
    is_weekend := if 5 ≤ d.weekday.val then 1 else 0
    is_month_end := if 25 < d.day then 1 else 0
    is_rainy_season := if d.month ∈ [4, 5, 6, 7, 9, 10, 11] then 1 else 0
    usage_lag_1 := u.getD 0 30
    usage_lag_3 := u.getD 2 30
    usage_lag_7 := u.getD 6 30
    usage_lag_14 := u.getD 13 30
    usage_mean_7d := if 7 ≤ u.length then meanQ (u.take 7) else 30
    usage_var_7d := if 7 ≤ u.length then varQ (u.take 7) else 25
    usage_mean_14d := if 14 ≤ u.length then meanQ (u.take 14) else 30
    usage_var_14d := if 14 ≤ u.length then varQ (u.take 14) else 25
    stock_level_ratio := 1 }

/-- The inline feature construction of `predict_all_drugs_adaptive`, applied
to the prepared series `u`.  `usage_values[0]` is indexed without a guard in
the source; `u` always has 14 entries at the call site, so the Lean default
`0` is never used. -/
def prepare_features_batch (u : List ℚ) (d : PyDate) : Features :=
  { day_of_week := d.weekday.val
    day_of_month := d.day
    month := d.month
    week_of_month := calendarWeekOfMonth d
    is_weekend := if 5 ≤ d.weekday.val then 1 else 0
    is_month_end := if 25 < d.day then 1 else 0
    is_rainy_season := if d.month ∈ [4, 5, 6, 7, 9, 10, 11] then 1 else 0
    usage_lag_1 := u.getD 0 0
    usage_lag_3 := u.getD 2 30
    usage_lag_7 := u.getD 6 30
    usage_lag_14 := u.getD 13 30
    usage_mean_7d := meanQ (u.take 7)
    usage_var_7d := if 7 ≤ u.length then varQ (u.take 7) else 25
    usage_mean_14d := meanQ (u.take 14)
    usage_var_14d := if 14 ≤ u.length then varQ (u.take 14) else 25
    stock_level_ratio := 1 }

/-- An opaque per-drug predictor (`model.predict(features)[0]`). -/
abbrev Model := Features → ℚ

/-- The registry `self.models`, a Python dict keyed by `drug_id`.  It is kept
as an association list; `mapInsert` has the semantics of dict assignment. -/
abbrev ModelMap := List (ℕ × Model)

/-- `self.models[drug_id] = m` (overwrite-or-add). -/
def mapInsert (m : ModelMap) (k : ℕ) (v : Model) : ModelMap :=
  (k, v) :: m.filter fun p => p.1 ≠ k

/-- `drug_id in self.models`. -/
def mapContains (m : ModelMap) (k : ℕ) : Bool :=
  m.any fun p => p.1 == k

/-- `self.models[drug_id]` as a lookup. -/
def mapFind (m : ModelMap) (k : ℕ) : Option Model :=
  (m.find? fun p => p.1 == k).map (·.2)

/-- Artifact filenames are modelled as character lists so that the embedding
stays kernel-executable (Lean's `String` primitives do not reduce in the
kernel); `"...".toList` in statements recovers readable literals. -/
abbrev Filename := List Char

/-- Python's `str.split(sep)`: no collapsing, `"".split == [""]`. -/
def pySplit (sep : Char) : List Char → List (List Char)
  | [] => [[]]
  | c :: cs =>
    let r := pySplit sep cs
    if c = sep then [] :: r
    else
      match r with
      | [] => [[c]]
      | h :: t => (c :: h) :: t

/-- Python's `str.endswith(suffix)`. -/
def pyEndsWith (s suffix : List Char) : Bool := suffix.isSuffixOf s

/-- Python's `int(text)` on the strings that appear in artifact names: a
non-empty run of digits parses to its value, anything else raises (here:
`none`; the `int` builtin also accepts signs and whitespace, which never
occur in artifact names — `train.py` writes `model_{id}_{name}.pkl`). -/
def pyIntDigits (cs : List Char) : Option ℕ :=
  if cs ≠ [] ∧ cs.all Char.isDigit then
    some (cs.foldl (fun n c => 10 * n + (c.toNat - 48)) 0)
  else none

/-- `load_models`'s filename parse: keep files ending in `.pkl`, split on
`_`, require at least two parts with the first equal to `model`, and read
the drug id from the second part with `int` (a failure there — e.g. the
part `2.pkl` arising from a file named `model_2.pkl` — raises and the
artifact is skipped). -/
def parseArtifactId (filename : Filename) : Option ℕ :=
  if pyEndsWith filename ".pkl".toList then
    match pySplit '_' filename with
    | p0 :: p1 :: _ => if p0 = "model".toList then pyIntDigits p1 else none
    | _ => none
  else none

/-- `load_models`: iterate over the artifact directory listing and, for each
artifact whose name parses, assign `self.models[drug_id] = joblib.load(...)`.
The crucial point mirrored from the source is that the iteration starts from
the *current* map — the dict is never cleared. -/
def load_models : ModelMap → List (Filename × Model) → ModelMap
  | current, [] => current
  | current, a :: as =>
    match parseArtifactId a.1 with
    | some id => load_models (mapInsert current id a.2) as
    | none => load_models current as

/-- `calculate_trend_adjustment`, applied to the already-fetched 30-day
usage window (most recent first). -/
def calculate_trend_adjustment (recent_usage : List ℚ) : ℚ :=
  if recent_usage.length < 14 then 1
  else
    let recent_avg := meanQ (recent_usage.take 7)
    let older_avg := meanQ ((recent_usage.drop 7).take 7)
    if older_avg = 0 then 1
    else 0.7 * clampQ 0.5 1.5 (recent_avg / older_avg) + 0.3

/-- The inline trend computation of `predict_all_drugs_adaptive`, applied to
the per-drug 30-day batch window `w`: `trend_factor` starts at 1.0 and is
reassigned only when the window has at least 14 rows and the older-week mean
is strictly positive. -/
def batch_trend_factor (w : List ℚ) : ℚ :=
  if w.length < 14 then 1
  else
    let recent_7 := meanQ (w.take 7)
    let older_7 := meanQ ((w.drop 7).take 7)
    if 0 < older_7 then 0.7 * clampQ 0.5 1.5 (recent_7 / older_7) + 0.3
    else 1

/-- `self._seasonal_cache`, keyed by `f"{drug_id}_{weekday}"`. -/
abbrev SeasonalCache := List ((ℕ × ℕ) × ℚ)

/-- Cache lookup (`cache_key in self._seasonal_cache`). -/
def cacheFind (c : SeasonalCache) (k : ℕ × ℕ) : Option ℚ :=
  (c.find? fun p => p.1 == k).map (·.2)

/-- The same-weekday sample selection of `calculate_seasonality_adjustment`:
keep `usage[i]` whenever `(len - 1 - i) % 7 == 6 - dow`. -/
def dow_samples (w : List ℚ) (dow : Fin 7) : List ℚ :=
  (w.enum.filter fun p => (w.length - 1 - p.1) % 7 = 6 - dow.val).map (·.2)

/-- `calculate_seasonality_adjustment(forecast_date, drug_id)`, applied to
the already-fetched 21-day window `w`; returns the factor together with the
cache after the call. -/
def calculate_seasonality_adjustment (cache : SeasonalCache) (drug_id : ℕ)
    (dow : Fin 7) (w : List ℚ) : ℚ × SeasonalCache :=
  match cacheFind cache (drug_id, dow.val) with
  | some v => (v, cache)
  | none =>
    if w.length < 14 then (1, cache)
    else
      let du := dow_samples w dow
      if 2 ≤ du.length then
        let dow_avg := meanQ du
        let overall_avg := meanQ w
        if 0 < overall_avg then
          let f := clampQ 0.8 1.2 (dow_avg / overall_avg)
          (f, ((drug_id, dow.val), f) :: cache)
        else (1, cache)
      else (1, cache)

/-- One entry of the list returned by `predict_demand`: the day index into
the horizon, the emitted (clamped, rounded) prediction, and the weekday of
the forecast date. -/
structure BasePoint where
  dayIndex : ℕ
  predicted_demand : ℚ
  weekday : Fin 7
deriving DecidableEq, Repr

/-- `predict_demand(drug_id, days)`.  `dateAt i` abstracts the forecast date
`tomorrow + i` (both paths derive it by the same `timedelta` arithmetic from
the same clock).  Raising `ValueError` for an unknown id is modelled as
`none`. -/
def predict_demand (models : ModelMap) (hist : List UsageRecord)
    (dateAt : ℕ → PyDate) (drug_id : ℕ) (days : ℕ) : Option (List BasePoint) :=
  match mapFind models drug_id with
  | none => none
  | some model =>
    some <| (List.range days).map fun i =>
      let d := dateAt i
      let pred := max 0 (model (prepare_features hist d))
      { dayIndex := i, predicted_demand := round1 pred, weekday := d.weekday }

/-- One entry of the list returned by `get_adaptive_predictions`. -/
structure AdaptivePoint where
  dayIndex : ℕ
  predicted_demand : ℚ
  base_prediction : ℚ
  trend_factor : ℚ
  seasonal_factor : ℚ
  adjustment_applied : ℚ
  weekday : Fin 7
deriving DecidableEq, Repr

/-- The per-day loop of `get_adaptive_predictions`, threading the seasonal
cache through the iterations. -/
def adaptive_loop (drug_id : ℕ) (trend : ℚ) (w21 : List ℚ) :
    List BasePoint → SeasonalCache → List AdaptivePoint × SeasonalCache
  | [], c => ([], c)
  | p :: ps, c =>
    let sc := calculate_seasonality_adjustment c drug_id p.weekday w21
    let adjusted := max 0 (p.predicted_demand * trend * sc.1)
    let pt : AdaptivePoint :=
      { dayIndex := p.dayIndex
        predicted_demand := round1 adjusted
        base_prediction := p.predicted_demand
        trend_factor := round2 trend
        seasonal_factor := round2 sc.1
        adjustment_applied := round2 (trend * sc.1)
        weekday := p.weekday }
    let rest := adaptive_loop drug_id trend w21 ps sc.2
    (pt :: rest.1, rest.2)

/-- `get_adaptive_predictions(drug_id, days)`: base predictions from
`predict_demand`, one trend factor per request from the 30-day window, one
seasonal factor per day from the 21-day window. -/
def get_adaptive_predictions (models : ModelMap) (hist : List UsageRecord)
    (dateAt : ℕ → PyDate) (cache : SeasonalCache) (drug_id : ℕ) (days : ℕ) :
    Option (List AdaptivePoint × SeasonalCache) :=
  match predict_demand models hist dateAt drug_id days with
  | none => none
  | some base =>
    let trend := calculate_trend_adjustment (get_recent_usage hist 30)
    some (adaptive_loop drug_id trend (get_recent_usage hist 21) base cache)

/-- One entry of a drug's prediction list in `predict_all_drugs_adaptive`
(the batch path emits no `adjustment_applied` field). -/
structure BatchPoint where
  dayIndex : ℕ
  predicted_demand : ℚ
  base_prediction : ℚ
  trend_factor : ℚ
  seasonal_factor : ℚ
  weekday : Fin 7
deriving DecidableEq, Repr

/-- The per-drug value of `predict_all_drugs_adaptive`. -/
structure BatchDrugResult where
  points : List BatchPoint
  current_stock : ℚ
deriving DecidableEq, Repr

/-- `predict_all_drugs_adaptive(days)`.  `allUsage` is the partitioned
result of the bulk 30-day usage query (`{}` misses are the empty history);
`allStock` of the bulk stock query (misses are 0, applied by the caller).
The seasonal factor is pinned at 1.0 on this path. -/
def predict_all_drugs_adaptive (models : ModelMap)
    (allUsage : ℕ → List UsageRecord) (allStock : ℕ → ℚ)
    (dateAt : ℕ → PyDate) (days : ℕ) : List (ℕ × BatchDrugResult) :=
  models.map fun dm =>
    let w := get_recent_usage_batch (allUsage dm.1) 30
    let trend := batch_trend_factor w
    let u := usage_values_batch w
    (dm.1,
      { points := (List.range days).map fun i =>
          let d := dateAt i
          let base := max 0 (dm.2 (prepare_features_batch u d))
          let adjusted := max 0 (base * trend * 1)
          { dayIndex := i
            predicted_demand := round1 adjusted
            base_prediction := round1 base
            trend_factor := round2 trend
            seasonal_factor := round2 1
            weekday := d.weekday }
        current_stock := allStock dm.1 })

/-- The classification underlying `get_recommendation`'s message strings. -/
inductive RecClass
  | urgent
  | critical
  | warning
  | ok
deriving DecidableEq, Repr

/-- `days_of_stock = current_stock / (total/7) if total > 0 else 999`. -/
def days_of_stock (current_stock total : ℚ) : ℚ :=
  if 0 < total then current_stock / (total / 7) else 999

/-- `get_recommendation(drug_id, current_stock, predictions)`, with
`predictions` abstracted to its `predicted_demand` values and the message
strings abstracted to their classification.  `drug_info` maps drug id to
reorder level; an unknown id falls back to 50. -/
def get_recommendation (drug_info : List (ℕ × ℚ)) (drug_id : ℕ)
    (current_stock : ℚ) (preds : List ℚ) : RecClass :=
  let total := preds.sum
  let dos := days_of_stock current_stock total
  let reorder_level := ((drug_info.find? fun p => p.1 == drug_id).map (·.2)).getD 50
  if current_stock ≤ reorder_level then .urgent
  else if dos ≤ 3 then .critical
  else if dos ≤ 7 then .warning
  else .ok

/-- The failure modes of the `/forecast/{drug_id}` endpoint that the claims
distinguish: the 404 raised for an unknown id, and the 500 wrapping any
downstream exception. -/
inductive ApiError
  | notFound (drug_id : ℕ)
  | internal
deriving DecidableEq, Repr

/-- The response body of `/forecast/{drug_id}` (fields the claims touch). -/
structure ForecastResponse where
  drug_id : ℕ
  current_stock : ℚ
  reorder_level : ℚ
  forecasts : List AdaptivePoint
  total_predicted_7_days : ℚ
  recommendation : RecClass

/-- The handler `forecast_drug` of `main.py`: 404 when the id has no model,
otherwise adaptive predictions, the 7-day total over the emitted values, and
the recommendation over all emitted values. -/
def forecast_drug (models : ModelMap) (drug_info : List (ℕ × ℚ))
    (hist : List UsageRecord) (dateAt : ℕ → PyDate) (cache : SeasonalCache)
    (current_stock : ℚ) (drug_id : ℕ) (days : ℕ) :
    Except ApiError (ForecastResponse × SeasonalCache) :=
  if ¬ mapContains models drug_id then .error (.notFound drug_id)
  else
    match get_adaptive_predictions models hist dateAt cache drug_id days with
    | none => .error .internal
    | some pc =>
      let emitted := pc.1.map (·.predicted_demand)
      .ok
        ({ drug_id := drug_id
           current_stock := current_stock
           reorder_level :=
             ((drug_info.find? fun p => p.1 == drug_id).map (·.2)).getD 50
           forecasts := pc.1
           total_predicted_7_days := round1 (emitted.take 7).sum
           recommendation := get_recommendation drug_info drug_id current_stock emitted },
         pc.2)

/-! ## Named concrete instances used in witnesses and counterexamples -/

/-- Well-formedness of the seasonal cache: every stored factor is in
`[0.8, 1.2]`.  This holds in every reachable cache state, since only the
clamped branch writes to the cache. -/
def cacheWF (c : SeasonalCache) : Prop := ∀ p ∈ c, 4/5 ≤ p.2 ∧ p.2 ≤ 6/5

/-- A fixed forecast date (a Monday) for concrete evaluations. -/
def dateMon : PyDate := ⟨0, 1, 1⟩

/-- A constant forecast-date schedule. -/
def dAtMon : ℕ → PyDate := fun _ => dateMon

/-- A history with one record 1 day old and one 20 days old: inside the
30-day batch window but outside the single-path 14-day window. -/
def histMixed : List UsageRecord := [⟨1, 10⟩, ⟨20, 20⟩]

/-- A model that reads off the `usage_lag_3` feature. -/
def modelLag3 : Model := fun f => f.usage_lag_3

/-- The Scenario-A usage series as a point-in-time history, most recent
first, one record per day for the last 14 days. -/
def histScenario : List UsageRecord :=
  List.zipWith (fun (i : ℕ) (q : ℚ) => UsageRecord.mk (i + 1) q)
    (List.range 14) [10, 12, 11, 13, 9, 14, 10, 5, 5, 6, 5, 5, 6, 5]

/-- A constant model predicting 1.04 units per day. -/
def modelConst : Model := fun _ => 26/25

/-- A model returning a negative raw output. -/
def modelNeg : Model := fun _ => -5

/-- A one-record history, entirely inside the 14-day window. -/
def histRecent : List UsageRecord := [⟨1, 10⟩]

/-- A 10-record history (Scenario D: insufficient data everywhere). -/
def histTen : List UsageRecord :=
  List.zipWith (fun (i : ℕ) (q : ℚ) => UsageRecord.mk (i + 1) q)
    (List.range 10) [3, 4, 3, 5, 2, 3, 4, 3, 5, 4]

/-! ## Supporting lemmas -/

theorem pyRound_nonneg {x : ℚ} (hx : 0 ≤ x) : 0 ≤ pyRound x := by
  unfold pyRound
  have h0 : (0 : ℤ) ≤ ⌊x⌋ := Int.le_floor.mpr (by exact_mod_cast hx)
  dsimp only
  split
  · exact h0
  · split
    · omega
    · split <;> omega

theorem pyRound_intCast (k : ℤ) : pyRound (k : ℚ) = k := by
  simp [pyRound, Int.floor_intCast]

theorem round1_nonneg {x : ℚ} (hx : 0 ≤ x) : 0 ≤ round1 x := by
  unfold round1
  have : (0 : ℚ) ≤ pyRound (10 * x) := by
    exact_mod_cast pyRound_nonneg (by linarith)
  positivity

theorem round1_round1 (x : ℚ) : round1 (round1 x) = round1 x := by
  unfold round1
  have h : (10 : ℚ) * ((pyRound (10 * x) : ℚ) / 10) = (pyRound (10 * x) : ℚ) := by
    ring
  rw [h, pyRound_intCast]

theorem clampQ_left (lo hi x : ℚ) : lo ≤ clampQ lo hi x := le_max_left _ _

theorem clampQ_right (lo hi x : ℚ) (h : lo ≤ hi) : clampQ lo hi x ≤ hi :=
  max_le h (min_le_left _ _)

/-- The single-path trend factor is always in `[0.5, 1.5]` (the computed
branch even stays in `[0.65, 1.35]`). -/
theorem trend_bounds (u : List ℚ) :
    1/2 ≤ calculate_trend_adjustment u ∧ calculate_trend_adjustment u ≤ 3/2 := by
  unfold calculate_trend_adjustment
  dsimp only
  split
  · norm_num
  · split
    · norm_num
    · constructor
      · have h := clampQ_left 0.5 1.5 (meanQ (u.take 7) / meanQ ((u.drop 7).take 7))
        nlinarith
      · have h := clampQ_right 0.5 1.5
          (meanQ (u.take 7) / meanQ ((u.drop 7).take 7)) (by norm_num)
        nlinarith

/-- The inline batch trend factor obeys the same bounds. -/
theorem batch_trend_bounds (w : List ℚ) :
    1/2 ≤ batch_trend_factor w ∧ batch_trend_factor w ≤ 3/2 := by
  unfold batch_trend_factor
  dsimp only
  split
  · norm_num
  · split
    · constructor
      · have h := clampQ_left 0.5 1.5 (meanQ (w.take 7) / meanQ ((w.drop 7).take 7))
        nlinarith
      · have h := clampQ_right 0.5 1.5
          (meanQ (w.take 7) / meanQ ((w.drop 7).take 7)) (by norm_num)
        nlinarith
    · norm_num

theorem cacheFind_mem {c : SeasonalCache} {k : ℕ × ℕ} {v : ℚ}
    (h : cacheFind c k = some v) : ∃ p ∈ c, p.2 = v := by
  unfold cacheFind at h
  cases hf : c.find? fun p => p.1 == k with
  | none => rw [hf] at h; simp at h
  | some p =>
    rw [hf] at h
    simp at h
    exact ⟨p, List.mem_of_find?_eq_some hf, h⟩

theorem clamp_seasonal_mem (x : ℚ) :
    4/5 ≤ clampQ 0.8 1.2 x ∧ clampQ 0.8 1.2 x ≤ 6/5 := by
  constructor
  · calc (4/5 : ℚ) = 0.8 := by norm_num
      _ ≤ _ := clampQ_left 0.8 1.2 x
  · calc clampQ 0.8 1.2 x ≤ 1.2 := clampQ_right 0.8 1.2 x (by norm_num)
      _ = 6/5 := by norm_num

/-- The seasonal factor is in `[0.8, 1.2]` for every window, and the cache
invariant is preserved. -/
theorem seasonal_bounds (cache : SeasonalCache) (drug_id : ℕ) (dow : Fin 7)
    (w : List ℚ) (hc : cacheWF cache) :
    (4/5 ≤ (calculate_seasonality_adjustment cache drug_id dow w).1 ∧
      (calculate_seasonality_adjustment cache drug_id dow w).1 ≤ 6/5) ∧
    cacheWF (calculate_seasonality_adjustment cache drug_id dow w).2 := by
  unfold calculate_seasonality_adjustment
  cases hf : cacheFind cache (drug_id, dow.val) with
  | some v =>
    obtain ⟨p, hp, hpv⟩ := cacheFind_mem hf
    exact ⟨hpv ▸ hc p hp, hc⟩
  | none =>
    dsimp only
    split
    · exact ⟨by norm_num, hc⟩
    · split
      · split
        · refine ⟨clamp_seasonal_mem _, ?_⟩
          intro p hp
          rcases List.mem_cons.mp hp with h | h
          · subst h
            exact clamp_seasonal_mem _
          · exact hc p h
        · exact ⟨by norm_num, hc⟩
      · exact ⟨by norm_num, hc⟩

theorem get_recent_usage_length_le (hist : List UsageRecord) (days : ℕ) :
    (get_recent_usage hist days).length ≤ hist.length := by
  unfold get_recent_usage
  calc (((hist.filter fun r => r.age ≤ days).map (·.qty)).take days).length
      ≤ ((hist.filter fun r => r.age ≤ days).map (·.qty)).length := by
        rw [List.length_take]; exact min_le_right _ _
    _ = (hist.filter fun r => r.age ≤ days).length := List.length_map _ _
    _ ≤ hist.length := List.length_filter_le _ _

theorem trend_short (u : List ℚ) (h : u.length < 14) :
    calculate_trend_adjustment u = 1 := by
  unfold calculate_trend_adjustment
  rw [if_pos h]

theorem seasonal_miss_short (cache : SeasonalCache) (drug_id : ℕ) (dow : Fin 7)
    (w : List ℚ) (hf : cacheFind cache (drug_id, dow.val) = none)
    (hw : w.length < 14) :
    calculate_seasonality_adjustment cache drug_id dow w = (1, cache) := by
  unfold calculate_seasonality_adjustment
  rw [hf]
  dsimp only
  rw [if_pos hw]

theorem cacheFind_nil (k : ℕ × ℕ) : cacheFind [] k = none := rfl

theorem adaptive_loop_short_window (drug_id : ℕ) (t : ℚ) (w21 : List ℚ)
    (hw : w21.length < 14) (ps : List BasePoint) :
    adaptive_loop drug_id t w21 ps [] =
      (ps.map fun p =>
        { dayIndex := p.dayIndex
          predicted_demand := round1 (max 0 (p.predicted_demand * t * 1))
          base_prediction := p.predicted_demand
          trend_factor := round2 t
          seasonal_factor := round2 1
          adjustment_applied := round2 (t * 1)
          weekday := p.weekday }, []) := by
  induction ps with
  | nil => rfl
  | cons p ps ih =>
    unfold adaptive_loop
    rw [seasonal_miss_short [] drug_id p.weekday w21 (cacheFind_nil _) hw]
    simp only [ih, List.map_cons]

/-- `predict_demand` output points are clamped-and-rounded model outputs. -/
theorem predict_demand_points (models : ModelMap) (hist : List UsageRecord)
    (dateAt : ℕ → PyDate) (drug_id : ℕ) (days : ℕ) (base : List BasePoint)
    (h : predict_demand models hist dateAt drug_id days = some base) :
    ∀ p ∈ base, ∃ x : ℚ, p.predicted_demand = round1 (max 0 x) := by
  unfold predict_demand at h
  cases hm : mapFind models drug_id with
  | none => rw [hm] at h; exact absurd h (by simp)
  | some model =>
    rw [hm] at h
    simp only [Option.some.injEq] at h
    intro p hp
    rw [← h] at hp
    obtain ⟨i, _, hip⟩ := List.mem_map.mp hp
    exact ⟨model (prepare_features hist (dateAt i)), by rw [← hip]⟩

theorem round1_fix_of_eq {x v : ℚ} (h : v = round1 (max 0 x)) :
    round1 v = v ∧ 0 ≤ v := by
  subst h
  exact ⟨round1_round1 _, round1_nonneg (le_max_left _ _)⟩

/-- The Scenario-A trend value: ratio 79/37 clamps to 1.5, smoothed to
1.35. -/
theorem trend_scenario :
    calculate_trend_adjustment [10, 12, 11, 13, 9, 14, 10, 5, 5, 6, 5, 5, 6, 5] = 27/20 := by
  have ht : ([10, 12, 11, 13, 9, 14, 10, 5, 5, 6, 5, 5, 6, 5] : List ℚ).take 7 =
      [10, 12, 11, 13, 9, 14, 10] := rfl
  have hd : (([10, 12, 11, 13, 9, 14, 10, 5, 5, 6, 5, 5, 6, 5] : List ℚ).drop 7).take 7 =
      [5, 5, 6, 5, 5, 6, 5] := rfl
  have hm1 : meanQ [10, 12, 11, 13, 9, 14, 10] = 79/7 := by norm_num [meanQ]
  have hm2 : meanQ [5, 5, 6, 5, 5, 6, 5] = 37/7 := by norm_num [meanQ]
  unfold calculate_trend_adjustment
  rw [if_neg (by norm_num)]
  dsimp only
  rw [ht, hd, hm1, hm2, if_neg (by norm_num)]
  norm_num [clampQ, min_def, max_def]

/-- The Scenario-A seasonal value for a Monday: same-weekday samples
`[10, 5]`, factor `7.5 / (58/7) = 105/116`, which is cached. -/
theorem seasonal_scenario :
    calculate_seasonality_adjustment [] 1 0 [10, 12, 11, 13, 9, 14, 10, 5, 5, 6, 5, 5, 6, 5] =
      (105/116, [((1, 0), 105/116)]) := by
  have hds : dow_samples [10, 12, 11, 13, 9, 14, 10, 5, 5, 6, 5, 5, 6, 5] 0 = [10, 5] := rfl
  have hm1 : meanQ [(10 : ℚ), 5] = 15/2 := by norm_num [meanQ]
  have hm2 : meanQ [10, 12, 11, 13, 9, 14, 10, 5, 5, 6, 5, 5, 6, 5] = 58/7 := by
    norm_num [meanQ]
  unfold calculate_seasonality_adjustment
  rw [cacheFind_nil]
  dsimp only
  rw [hds, hm1, hm2]
  norm_num [clampQ, min_def, max_def]

/-- C3: For every 30-day usage window (most-recent-first) with at least 14
records, the trend factor equals `0.7 * clamp(mean(window[0:7]) /
mean(window[7:14]), 0.5, 1.5) + 0.3`, except that it is exactly 1.0 when
`mean(window[7:14])` is zero; on the Scenario-A window it is exactly 1.35. -/
theorem c3_trend_formula :
    (∀ u : List ℚ, 14 ≤ u.length →
      calculate_trend_adjustment u =
        if meanQ ((u.drop 7).take 7) = 0 then 1
        else 0.7 * clampQ 0.5 1.5 (meanQ (u.take 7) / meanQ ((u.drop 7).take 7)) + 0.3) ∧
    calculate_trend_adjustment [10, 12, 11, 13, 9, 14, 10, 5, 5, 6, 5, 5, 6, 5] = 27/20 := by
  refine ⟨?_, trend_scenario⟩
  intro u hu
  unfold calculate_trend_adjustment
  rw [if_neg (by omega)]

/-- Witness for C3: the formula instantiated on the Scenario-A window. -/
theorem c3_witness :
    14 ≤ ([10, 12, 11, 13, 9, 14, 10, 5, 5, 6, 5, 5, 6, 5] : List ℚ).length ∧
    calculate_trend_adjustment [10, 12, 11, 13, 9, 14, 10, 5, 5, 6, 5, 5, 6, 5] =
      if meanQ ((([10, 12, 11, 13, 9, 14, 10, 5, 5, 6, 5, 5, 6, 5] : List ℚ).drop 7).take 7) = 0
      then 1
      else 0.7 * clampQ 0.5 1.5
        (meanQ (([10, 12, 11, 13, 9, 14, 10, 5, 5, 6, 5, 5, 6, 5] : List ℚ).take 7) /
          meanQ ((([10, 12, 11, 13, 9, 14, 10, 5, 5, 6, 5, 5, 6, 5] : List ℚ).drop 7).take 7)) + 0.3 :=
  ⟨by decide, c3_trend_formula.1 _ (by decide)⟩

/-- C4: For every input window of any length and magnitudes the trend factor
lies in `[0.5, 1.5]` (both on the single path and inline on the batch path),
and the seasonal factor lies in `[0.8, 1.2]` whenever the cache only holds
previously clamped values (an invariant the call itself preserves). -/
theorem c4_factor_bounds :
    (∀ u : List ℚ,
      1/2 ≤ calculate_trend_adjustment u ∧ calculate_trend_adjustment u ≤ 3/2) ∧
    (∀ w : List ℚ, 1/2 ≤ batch_trend_factor w ∧ batch_trend_factor w ≤ 3/2) ∧
    (∀ (cache : SeasonalCache) (drug_id : ℕ) (dow : Fin 7) (w : List ℚ),
      cacheWF cache →
      (4/5 ≤ (calculate_seasonality_adjustment cache drug_id dow w).1 ∧
        (calculate_seasonality_adjustment cache drug_id dow w).1 ≤ 6/5) ∧
      cacheWF (calculate_seasonality_adjustment cache drug_id dow w).2) :=
  ⟨trend_bounds, batch_trend_bounds, fun c d dw w hc => seasonal_bounds c d dw w hc⟩

/-- Witness for C4: the seasonal bound instantiated at the empty cache and
the Scenario-A window. -/
theorem c4_witness :
    cacheWF [] ∧
    (4/5 ≤ (calculate_seasonality_adjustment [] 1 0
        [10, 12, 11, 13, 9, 14, 10, 5, 5, 6, 5, 5, 6, 5]).1 ∧
      (calculate_seasonality_adjustment [] 1 0
        [10, 12, 11, 13, 9, 14, 10, 5, 5, 6, 5, 5, 6, 5]).1 ≤ 6/5) ∧
    cacheWF (calculate_seasonality_adjustment [] 1 0
        [10, 12, 11, 13, 9, 14, 10, 5, 5, 6, 5, 5, 6, 5]).2 :=
  ⟨fun p hp => absurd hp (List.not_mem_nil p),
    c4_factor_bounds.2.2 [] 1 0 _ (fun p hp => absurd hp (List.not_mem_nil p))⟩

/-- C6: Whenever `current_stock <= reorder_level` the recommendation is
urgent, regardless of `days_of_stock`; Scenario B (reorder level 50, stock
40, 7-day total 70, hence 4 days of stock) classifies as urgent. -/
theorem c6_urgent_dominates :
    (∀ (drug_info : List (ℕ × ℚ)) (drug_id : ℕ) (current_stock : ℚ)
       (preds : List ℚ),
      current_stock ≤ ((drug_info.find? fun p => p.1 == drug_id).map (·.2)).getD 50 →
      get_recommendation drug_info drug_id current_stock preds = .urgent) ∧
    (get_recommendation [(1, 50)] 1 40 (List.replicate 7 10) = .urgent ∧
      (List.replicate 7 (10 : ℚ)).sum = 70 ∧
      days_of_stock 40 (List.replicate 7 (10 : ℚ)).sum = 4) := by
  constructor
  · intro info id cs preds h
    unfold get_recommendation
    dsimp only
    rw [if_pos h]
  · have hr : ((([(1, 50)] : List (ℕ × ℚ)).find? fun p => p.1 == 1).map (·.2)).getD 50 = 50 :=
      rfl
    have hs : List.replicate 7 (10 : ℚ) = [10, 10, 10, 10, 10, 10, 10] := rfl
    have hsum : (List.replicate 7 (10 : ℚ)).sum = 70 := by rw [hs]; norm_num
    refine ⟨?_, hsum, ?_⟩
    · unfold get_recommendation
      dsimp only
      rw [hr, if_pos (by norm_num)]
    · rw [hsum]
      unfold days_of_stock
      rw [if_pos (by norm_num)]
      norm_num

/-- Witness for C6: the dominance applied at Scenario B's numbers. -/
theorem c6_witness :
    (40 : ℚ) ≤ ((([(1, 50)] : List (ℕ × ℚ)).find? fun p => p.1 == 1).map (·.2)).getD 50 ∧
    get_recommendation [(1, 50)] 1 40 [10, 10, 10, 10, 10, 10, 10] = .urgent := by
  have h : (40 : ℚ) ≤ ((([(1, 50)] : List (ℕ × ℚ)).find? fun p => p.1 == 1).map (·.2)).getD 50 := by
    show (40 : ℚ) ≤ 50
    norm_num
  exact ⟨h, c6_urgent_dominates.1 [(1, 50)] 1 40 _ h⟩

theorem round2_one : round2 1 = 1 := by
  unfold round2
  rw [mul_one, show ((100 : ℚ)) = ((100 : ℤ) : ℚ) by norm_num, pyRound_intCast]
  norm_num

/-- C7: With fewer than 14 history records both correction factors are
exactly 1.0 (the seasonal one provided its `(drug, weekday)` key is not
cached — and under such a history nothing is ever cached, as the third
conjunct shows by the cache coming back unchanged), and every adjusted
prediction equals its raw prediction. -/
theorem c7_insufficient_history :
    ∀ hist : List UsageRecord, hist.length < 14 →
      calculate_trend_adjustment (get_recent_usage hist 30) = 1 ∧
      (∀ (cache : SeasonalCache) (drug_id : ℕ) (dow : Fin 7),
        cacheFind cache (drug_id, dow.val) = none →
        calculate_seasonality_adjustment cache drug_id dow (get_recent_usage hist 21) =
          (1, cache)) ∧
      (∀ (models : ModelMap) (drug_id : ℕ) (dateAt : ℕ → PyDate) (days : ℕ)
         (pts : List AdaptivePoint) (c : SeasonalCache),
        get_adaptive_predictions models hist dateAt [] drug_id days = some (pts, c) →
        c = [] ∧ ∀ p ∈ pts,
          p.predicted_demand = p.base_prediction ∧
          p.trend_factor = 1 ∧ p.seasonal_factor = 1) := by
  intro hist hlen
  have h30 : (get_recent_usage hist 30).length < 14 :=
    lt_of_le_of_lt (get_recent_usage_length_le hist 30) hlen
  have h21 : (get_recent_usage hist 21).length < 14 :=
    lt_of_le_of_lt (get_recent_usage_length_le hist 21) hlen
  have htrend : calculate_trend_adjustment (get_recent_usage hist 30) = 1 :=
    trend_short _ h30
  refine ⟨htrend, fun cache drug_id dow hf => seasonal_miss_short _ _ _ _ hf h21, ?_⟩
  intro models drug_id dateAt days pts c h
  unfold get_adaptive_predictions at h
  cases hb : predict_demand models hist dateAt drug_id days with
  | none => rw [hb] at h; exact absurd h (by simp)
  | some base =>
    rw [hb] at h
    dsimp only at h
    rw [htrend, adaptive_loop_short_window drug_id 1 (get_recent_usage hist 21) h21 base] at h
    simp only [Option.some.injEq, Prod.mk.injEq] at h
    obtain ⟨hpts, hc⟩ := h
    refine ⟨hc.symm, ?_⟩
    intro p hp
    rw [← hpts] at hp
    obtain ⟨q, hq, hqp⟩ := List.mem_map.mp hp
    obtain ⟨x, hx⟩ := predict_demand_points models hist dateAt drug_id days base hb q hq
    obtain ⟨hfix, hpos⟩ := round1_fix_of_eq hx
    subst hqp
    refine ⟨?_, ?_, ?_⟩
    · show round1 (max 0 (q.predicted_demand * 1 * 1)) = q.predicted_demand
      rw [mul_one, mul_one, max_eq_right hpos, hfix]
    · exact round2_one
    · exact round2_one

/-- Witness for C7: Scenario D's 10-record history, with the pipeline run on
a registered constant model for one horizon day. -/
theorem c7_witness :
    histTen.length < 14 ∧
    calculate_trend_adjustment (get_recent_usage histTen 30) = 1 ∧
    calculate_seasonality_adjustment [] 1 0 (get_recent_usage histTen 21) = (1, []) ∧
    get_adaptive_predictions [(1, modelConst)] histTen dAtMon [] 1 1 =
      some ([{ dayIndex := 0, predicted_demand := 1, base_prediction := 1, trend_factor := 1,
               seasonal_factor := 1, adjustment_applied := 1, weekday := 0 }], []) ∧
    ({ dayIndex := 0, predicted_demand := 1, base_prediction := 1, trend_factor := 1,
       seasonal_factor := 1, adjustment_applied := 1, weekday := 0 } : AdaptivePoint).predicted_demand =
      ({ dayIndex := 0, predicted_demand := 1, base_prediction := 1, trend_factor := 1,
         seasonal_factor := 1, adjustment_applied := 1, weekday := 0 } : AdaptivePoint).base_prediction := by
  have hlen : histTen.length < 14 := by decide
  have h : get_adaptive_predictions [(1, modelConst)] histTen dAtMon [] 1 1 =
      some ([{ dayIndex := 0, predicted_demand := 1, base_prediction := 1, trend_factor := 1,
               seasonal_factor := 1, adjustment_applied := 1, weekday := 0 }], []) := by
    norm_num [get_adaptive_predictions, predict_demand, mapFind, modelConst, round1, round2,
      pyRound, List.range_succ, adaptive_loop, calculate_seasonality_adjustment, cacheFind,
      calculate_trend_adjustment, get_recent_usage, histTen, dAtMon, dateMon, meanQ]
  have happ := (c7_insufficient_history histTen hlen).2.2 [(1, modelConst)] 1 dAtMon 1 _ _ h
  exact ⟨hlen, (c7_insufficient_history histTen hlen).1,
    (c7_insufficient_history histTen hlen).2.1 [] 1 0 rfl, h,
    (happ.2 _ (by simp)).1⟩

/-- Every point produced by the adaptive loop arises from a base point by
the adjust-clamp-round step, for the seasonal factor the threaded cache
produced on that iteration. -/
theorem adaptive_loop_points (drug_id : ℕ) (t : ℚ) (w : List ℚ) :
    ∀ (ps : List BasePoint) (c : SeasonalCache),
      ∀ pt ∈ (adaptive_loop drug_id t w ps c).1,
        ∃ q ∈ ps, ∃ s : ℚ,
          pt = { dayIndex := q.dayIndex
                 predicted_demand := round1 (max 0 (q.predicted_demand * t * s))
                 base_prediction := q.predicted_demand
                 trend_factor := round2 t
                 seasonal_factor := round2 s
                 adjustment_applied := round2 (t * s)
                 weekday := q.weekday } := by
  intro ps
  induction ps with
  | nil => intro c pt hpt; exact absurd hpt (List.not_mem_nil pt)
  | cons p ps ih =>
    intro c pt hpt
    unfold adaptive_loop at hpt
    rcases List.mem_cons.mp hpt with h | h
    · exact ⟨p, List.mem_cons_self p ps,
        (calculate_seasonality_adjustment c drug_id p.weekday w).1, h⟩
    · obtain ⟨q, hq, s, hs⟩ :=
        ih (calculate_seasonality_adjustment c drug_id p.weekday w).2 pt h
      exact ⟨q, List.mem_cons_of_mem p hq, s, hs⟩

/-- Every point of a batch drug result is a clamped-rounded model output
adjusted by the drug's trend factor. -/
theorem batch_points (models : ModelMap) (allUsage : ℕ → List UsageRecord)
    (allStock : ℕ → ℚ) (dateAt : ℕ → PyDate) (days : ℕ)
    (e : ℕ × BatchDrugResult)
    (he : e ∈ predict_all_drugs_adaptive models allUsage allStock dateAt days) :
    ∀ p ∈ e.2.points, ∃ x : ℚ,
      p.base_prediction = round1 (max 0 x) ∧
      p.predicted_demand =
        round1 (max 0 (max 0 x * batch_trend_factor (get_recent_usage_batch (allUsage e.1) 30) * 1)) := by
  unfold predict_all_drugs_adaptive at he
  obtain ⟨dm, hmem, hdm⟩ := List.mem_map.mp he
  subst hdm
  intro p hp
  dsimp only at hp
  obtain ⟨i, hi, hip⟩ := List.mem_map.mp hp
  subst hip
  exact ⟨dm.2 (prepare_features_batch
    (usage_values_batch (get_recent_usage_batch (allUsage dm.1) 30)) (dateAt i)), rfl, rfl⟩

/-- C8: Every emitted raw (base) prediction and every emitted adjusted
prediction is non-negative, on the single-entity path and on the batch
path, whatever the opaque model outputs. -/
theorem c8_nonneg :
    (∀ (models : ModelMap) (hist : List UsageRecord) (dateAt : ℕ → PyDate)
       (cache : SeasonalCache) (drug_id days : ℕ) (pts : List AdaptivePoint)
       (c : SeasonalCache),
      get_adaptive_predictions models hist dateAt cache drug_id days = some (pts, c) →
      ∀ p ∈ pts, 0 ≤ p.predicted_demand ∧ 0 ≤ p.base_prediction) ∧
    (∀ (models : ModelMap) (allUsage : ℕ → List UsageRecord) (allStock : ℕ → ℚ)
       (dateAt : ℕ → PyDate) (days : ℕ) (e : ℕ × BatchDrugResult),
      e ∈ predict_all_drugs_adaptive models allUsage allStock dateAt days →
      ∀ p ∈ e.2.points, 0 ≤ p.predicted_demand ∧ 0 ≤ p.base_prediction) := by
  constructor
  · intro models hist dateAt cache drug_id days pts c h p hp
    unfold get_adaptive_predictions at h
    cases hb : predict_demand models hist dateAt drug_id days with
    | none => rw [hb] at h; exact absurd h (by simp)
    | some base =>
      rw [hb] at h
      dsimp only at h
      rw [Option.some.injEq] at h
      have hpts : pts = (adaptive_loop drug_id
          (calculate_trend_adjustment (get_recent_usage hist 30))
          (get_recent_usage hist 21) base cache).1 := by rw [h]
      rw [hpts] at hp
      obtain ⟨q, hq, s, hs⟩ := adaptive_loop_points _ _ _ base cache p hp
      obtain ⟨x, hx⟩ := predict_demand_points models hist dateAt drug_id days base hb q hq
      subst hs
      exact ⟨round1_nonneg (le_max_left _ _), (round1_fix_of_eq hx).2⟩
  · intro models allUsage allStock dateAt days e he p hp
    obtain ⟨x, hb, hd⟩ := batch_points models allUsage allStock dateAt days e he p hp
    rw [hb, hd]
    exact ⟨round1_nonneg (le_max_left _ _), round1_nonneg (le_max_left _ _)⟩

/-- Witness for C8: a model with output −5 on an empty history yields the
all-zero point, and the theorem applies to it. -/
theorem c8_witness :
    get_adaptive_predictions [(1, modelNeg)] [] dAtMon [] 1 1 =
      some ([{ dayIndex := 0, predicted_demand := 0, base_prediction := 0, trend_factor := 1,
               seasonal_factor := 1, adjustment_applied := 1, weekday := 0 }], []) ∧
    (0 : ℚ) ≤ ({ dayIndex := 0, predicted_demand := 0, base_prediction := 0, trend_factor := 1,
                 seasonal_factor := 1, adjustment_applied := 1, weekday := 0 } : AdaptivePoint).predicted_demand ∧
    (0 : ℚ) ≤ ({ dayIndex := 0, predicted_demand := 0, base_prediction := 0, trend_factor := 1,
                 seasonal_factor := 1, adjustment_applied := 1, weekday := 0 } : AdaptivePoint).base_prediction := by
  have h : get_adaptive_predictions [(1, modelNeg)] [] dAtMon [] 1 1 =
      some ([{ dayIndex := 0, predicted_demand := 0, base_prediction := 0, trend_factor := 1,
               seasonal_factor := 1, adjustment_applied := 1, weekday := 0 }], []) := by
    norm_num [get_adaptive_predictions, predict_demand, mapFind, modelNeg, round1, round2,
      pyRound, List.range_succ, adaptive_loop, calculate_seasonality_adjustment, cacheFind,
      calculate_trend_adjustment, get_recent_usage, dAtMon, dateMon, meanQ]
  have := c8_nonneg.1 [(1, modelNeg)] [] dAtMon [] 1 1 _ _ h _ (List.mem_singleton_self _)
  exact ⟨h, this⟩

theorem mapFind_isSome (m : ModelMap) (k : ℕ) :
    (mapFind m k).isSome = mapContains m k := by
  induction m with
  | nil => rfl
  | cons p t ih =>
    unfold mapFind mapContains
    unfold mapFind mapContains at ih
    cases h : p.1 == k <;>
      simp only [List.find?_cons, List.any_cons, h, Bool.false_or, Bool.true_or] <;>
      simp [ih]

/-- C9: A forecast request for an id with no registered model fails with the
404-style NotFound error; a request for a registered id never does (in this
pure embedding it succeeds outright). -/
theorem c9_not_found :
    ∀ (models : ModelMap) (drug_info : List (ℕ × ℚ)) (hist : List UsageRecord)
      (dateAt : ℕ → PyDate) (cache : SeasonalCache) (current_stock : ℚ)
      (drug_id days : ℕ),
      (mapContains models drug_id = false →
        forecast_drug models drug_info hist dateAt cache current_stock drug_id days =
          .error (.notFound drug_id)) ∧
      (mapContains models drug_id = true →
        ∃ r, forecast_drug models drug_info hist dateAt cache current_stock drug_id days =
          .ok r) := by
  intro models drug_info hist dateAt cache current_stock drug_id days
  constructor
  · intro h
    unfold forecast_drug
    rw [if_pos (by simp [h])]
  · intro h
    have hsome : (mapFind models drug_id).isSome = true := by
      rw [mapFind_isSome]; exact h
    obtain ⟨model, hm⟩ := Option.isSome_iff_exists.mp hsome
    unfold forecast_drug
    rw [if_neg (by simp [h])]
    unfold get_adaptive_predictions predict_demand
    rw [hm]
    exact ⟨_, rfl⟩

/-- Witness for C9: an unregistered id on an empty registry yields exactly
the NotFound error. -/
theorem c9_witness :
    mapContains [] 5 = false ∧
    forecast_drug [] [] [] dAtMon [] 0 5 7 = .error (.notFound 5) :=
  ⟨rfl, (c9_not_found [] [] [] dAtMon [] 0 5 7).1 rfl⟩

/-- C10: Every emitted prediction value — base and adjusted, on the single
and on the batch path — is exactly a one-decimal value (a fixed point of
`round1`), the endpoint recommendation and 7-day total are computed from the
emitted rounded values, and on a concrete input the emitted value differs
from the exact product `raw * trend * seasonal`. -/
theorem c10_rounding :
    (∀ (models : ModelMap) (hist : List UsageRecord) (dateAt : ℕ → PyDate)
       (cache : SeasonalCache) (drug_id days : ℕ) (pts : List AdaptivePoint)
       (c : SeasonalCache),
      get_adaptive_predictions models hist dateAt cache drug_id days = some (pts, c) →
      ∀ p ∈ pts, round1 p.predicted_demand = p.predicted_demand ∧
        round1 p.base_prediction = p.base_prediction) ∧
    (∀ (models : ModelMap) (allUsage : ℕ → List UsageRecord) (allStock : ℕ → ℚ)
       (dateAt : ℕ → PyDate) (days : ℕ) (e : ℕ × BatchDrugResult),
      e ∈ predict_all_drugs_adaptive models allUsage allStock dateAt days →
      ∀ p ∈ e.2.points, round1 p.predicted_demand = p.predicted_demand ∧
        round1 p.base_prediction = p.base_prediction) ∧
    (∀ (models : ModelMap) (drug_info : List (ℕ × ℚ)) (hist : List UsageRecord)
       (dateAt : ℕ → PyDate) (cache : SeasonalCache) (current_stock : ℚ)
       (drug_id days : ℕ) (r : ForecastResponse) (c : SeasonalCache),
      forecast_drug models drug_info hist dateAt cache current_stock drug_id days =
        .ok (r, c) →
      r.recommendation = get_recommendation drug_info drug_id current_stock
        (r.forecasts.map (·.predicted_demand)) ∧
      r.total_predicted_7_days =
        round1 ((r.forecasts.map (·.predicted_demand)).take 7).sum) ∧
    ((get_adaptive_predictions [(1, modelConst)] histScenario dAtMon [] 1 1).map
        (fun rc => rc.1.map (·.predicted_demand)) = some [6/5] ∧
      (6/5 : ℚ) ≠ max 0 (26/25 *
        calculate_trend_adjustment (get_recent_usage histScenario 30) *
        (calculate_seasonality_adjustment [] 1 0 (get_recent_usage histScenario 21)).1)) := by
  refine ⟨?_, ?_, ?_, ?_⟩
  · intro models hist dateAt cache drug_id days pts c h p hp
    unfold get_adaptive_predictions at h
    cases hb : predict_demand models hist dateAt drug_id days with
    | none => rw [hb] at h; exact absurd h (by simp)
    | some base =>
      rw [hb] at h
      dsimp only at h
      rw [Option.some.injEq] at h
      have hpts : pts = (adaptive_loop drug_id
          (calculate_trend_adjustment (get_recent_usage hist 30))
          (get_recent_usage hist 21) base cache).1 := by rw [h]
      rw [hpts] at hp
      obtain ⟨q, hq, s, hs⟩ := adaptive_loop_points _ _ _ base cache p hp
      obtain ⟨x, hx⟩ := predict_demand_points models hist dateAt drug_id days base hb q hq
      subst hs
      exact ⟨round1_round1 _, (round1_fix_of_eq hx).1⟩
  · intro models allUsage allStock dateAt days e he p hp
    obtain ⟨x, hb, hd⟩ := batch_points models allUsage allStock dateAt days e he p hp
    rw [hb, hd]
    exact ⟨round1_round1 _, round1_round1 _⟩
  · intro models drug_info hist dateAt cache current_stock drug_id days r c hr
    unfold forecast_drug at hr
    split at hr
    · exact absurd hr (by simp)
    · cases hga : get_adaptive_predictions models hist dateAt cache drug_id days with
      | none => rw [hga] at hr; exact absurd hr (by simp)
      | some pc =>
        rw [hga] at hr
        dsimp only at hr
        rw [Except.ok.injEq, Prod.mk.injEq] at hr
        obtain ⟨hr1, -⟩ := hr
        rw [← hr1]
        exact ⟨rfl, rfl⟩
  · have hw21 : get_recent_usage histScenario 21 =
        [10, 12, 11, 13, 9, 14, 10, 5, 5, 6, 5, 5, 6, 5] := rfl
    have hw30 : get_recent_usage histScenario 30 =
        [10, 12, 11, 13, 9, 14, 10, 5, 5, 6, 5, 5, 6, 5] := rfl
    have hbase : predict_demand [(1, modelConst)] histScenario dAtMon 1 1 =
        some [{ dayIndex := 0, predicted_demand := 1, weekday := 0 }] := by
      norm_num [predict_demand, mapFind, modelConst, round1, pyRound, List.range_succ,
        dAtMon, dateMon]
    have hloop : adaptive_loop 1 (27/20) [10, 12, 11, 13, 9, 14, 10, 5, 5, 6, 5, 5, 6, 5]
        [{ dayIndex := 0, predicted_demand := 1, weekday := 0 }] [] =
        ([{ dayIndex := 0, predicted_demand := 6/5, base_prediction := 1,
            trend_factor := 27/20, seasonal_factor := 91/100,
            adjustment_applied := 61/50, weekday := 0 }], [((1, 0), 105/116)]) := by
      unfold adaptive_loop
      dsimp only
      rw [seasonal_scenario]
      unfold adaptive_loop
      dsimp only
      norm_num [round1, round2, pyRound]
    have hfull : get_adaptive_predictions [(1, modelConst)] histScenario dAtMon [] 1 1 =
        some ([{ dayIndex := 0, predicted_demand := 6/5, base_prediction := 1,
                 trend_factor := 27/20, seasonal_factor := 91/100,
                 adjustment_applied := 61/50, weekday := 0 }], [((1, 0), 105/116)]) := by
      unfold get_adaptive_predictions
      rw [hbase]
      dsimp only
      rw [hw30, trend_scenario, hw21, hloop]
    constructor
    · rw [hfull]
      rfl
    · rw [hw30, trend_scenario, hw21, seasonal_scenario]
      dsimp only
      rw [max_eq_right (by norm_num)]
      norm_num

/-- Witness for C10: the fixed-point property applied to the concrete
one-point forecast of `c7`'s scenario history. -/
theorem c10_witness :
    get_adaptive_predictions [(1, modelConst)] histTen dAtMon [] 1 1 =
      some ([{ dayIndex := 0, predicted_demand := 1, base_prediction := 1, trend_factor := 1,
               seasonal_factor := 1, adjustment_applied := 1, weekday := 0 }], []) ∧
    round1 ({ dayIndex := 0, predicted_demand := 1, base_prediction := 1, trend_factor := 1,
              seasonal_factor := 1, adjustment_applied := 1, weekday := 0 } : AdaptivePoint).predicted_demand =
      ({ dayIndex := 0, predicted_demand := 1, base_prediction := 1, trend_factor := 1,
         seasonal_factor := 1, adjustment_applied := 1, weekday := 0 } : AdaptivePoint).predicted_demand := by
  have h : get_adaptive_predictions [(1, modelConst)] histTen dAtMon [] 1 1 =
      some ([{ dayIndex := 0, predicted_demand := 1, base_prediction := 1, trend_factor := 1,
               seasonal_factor := 1, adjustment_applied := 1, weekday := 0 }], []) := by
    norm_num [get_adaptive_predictions, predict_demand, mapFind, modelConst, round1, round2,
      pyRound, List.range_succ, adaptive_loop, calculate_seasonality_adjustment, cacheFind,
      calculate_trend_adjustment, get_recent_usage, histTen, dAtMon, dateMon, meanQ]
  exact ⟨h, (c10_rounding.1 [(1, modelConst)] histTen dAtMon [] 1 1 _ _ h _
    (List.mem_singleton_self _)).1⟩

theorem any_filter_ne (m : ModelMap) (k i : ℕ) :
    i ≠ k →
    ((m.filter fun p => p.1 ≠ k).any fun p => p.1 == i) = (m.any fun p => p.1 == i) := by
  intro h
  induction m with
  | nil => rfl
  | cons p t ih =>
    rw [List.filter_cons, List.any_cons]
    by_cases hp : p.1 = k
    · rw [if_neg (by simp [hp])]
      rw [ih]
      have hf : (p.1 == i) = false := by
        rw [hp]
        exact beq_eq_false_iff_ne.mpr fun he => h he.symm
      rw [hf, Bool.false_or]
    · rw [if_pos (by simp [hp]), List.any_cons, ih]

theorem mapContains_mapInsert (m : ModelMap) (k i : ℕ) (v : Model) :
    mapContains (mapInsert m k v) i = ((i == k) || mapContains m i) := by
  unfold mapContains mapInsert
  rw [List.any_cons]
  by_cases h : i = k
  · subst h
    simp
  · have h1 : ((k == i) : Bool) = false := beq_eq_false_iff_ne.mpr fun he => h he.symm
    have h2 : ((i == k) : Bool) = false := beq_eq_false_iff_ne.mpr h
    rw [h1, h2, any_filter_ne m k i h]

theorem load_models_nil (current : ModelMap) : load_models current [] = current := rfl

theorem load_models_cons (current : ModelMap) (a : Filename × Model)
    (as : List (Filename × Model)) :
    load_models current (a :: as) =
      match parseArtifactId a.1 with
      | some id => load_models (mapInsert current id a.2) as
      | none => load_models current as := rfl

/-- What a reload really does to the key set: the registry afterwards
contains an id exactly when the *previous* registry contained it or some
artifact in the scan parsed to it — stale entries are kept, not dropped. -/
theorem load_models_contains (artifacts : List (Filename × Model)) :
    ∀ (init : ModelMap) (id : ℕ),
      mapContains (load_models init artifacts) id =
        (mapContains init id || artifacts.any fun a => parseArtifactId a.1 == some id) := by
  induction artifacts with
  | nil =>
    intro init id
    simp [load_models_nil]
  | cons a as ih =>
    intro init id
    rw [List.any_cons, load_models_cons]
    cases hpa : parseArtifactId a.1 with
    | none =>
      dsimp only
      rw [ih init id]
      have hb : ((none == some id) : Bool) = false := rfl
      rw [hb, Bool.false_or]
    | some j =>
      dsimp only
      rw [ih (mapInsert init j a.2) id, mapContains_mapInsert]
      have hopt : ((some j == some id) : Bool) = (j == id) := by
        by_cases h : j = id <;> simp [h]
      have hsymm : ((id == j) : Bool) = (j == id) := by
        by_cases h : j = id
        · simp [h]
        · simp [h, Ne.symm h]
      rw [hopt, hsymm]
      cases j == id <;> cases mapContains init id <;> simp

/-- C2 counterexample: starting from a registry holding entity 1 and
reloading against an artifact collection whose single artifact parses to
entity 2, entity 1 is still registered afterwards although no artifact of
the scan parses to it — the registry does not contain *exactly* the
entities of the new artifact set. -/
theorem c2_counterexample :
    mapContains (load_models [(1, modelConst)] [("model_2_x.pkl".toList, modelConst)]) 1 = true ∧
    parseArtifactId "model_2_x.pkl".toList = some 2 ∧
    ([("model_2_x.pkl".toList, modelConst)].any
      fun a => parseArtifactId a.1 == some 1) = false := by
  refine ⟨?_, by decide, by decide⟩
  rw [load_models_contains [("model_2_x.pkl".toList, modelConst)] [(1, modelConst)] 1]
  decide

/-- C2 amended: reload merges instead of replacing — after `load_models`
the registry contains an id exactly when the previous registry contained it
or an artifact of the scan parsed to it (and the scan overwrites entries of
parsed ids one assignment at a time on the live map, so it is not an atomic
swap of a freshly built map). -/
theorem c2_reload_merges :
    ∀ (init : ModelMap) (artifacts : List (Filename × Model)) (id : ℕ),
      mapContains (load_models init artifacts) id =
        (mapContains init id || artifacts.any fun a => parseArtifactId a.1 == some id) :=
  fun init artifacts id => load_models_contains artifacts init id

theorem cacheFind_cons_self (k : ℕ × ℕ) (f : ℚ) (c : SeasonalCache) :
    cacheFind ((k, f) :: c) k = some f := by
  unfold cacheFind
  rw [List.find?_cons_of_pos _ (by simp)]
  rfl

/-- C5 counterexample: on the all-zero 14-record window there are two
same-weekday samples, yet the code returns 1.0 and caches nothing, while
the claim demands the clamped ratio (0.8 under the field reading of 0/0)
cached under the key. -/
theorem c5_counterexample :
    2 ≤ (dow_samples (List.replicate 14 (0 : ℚ)) 0).length ∧
    calculate_seasonality_adjustment [] 1 0 (List.replicate 14 (0 : ℚ)) = (1, []) ∧
    clampQ 0.8 1.2 (meanQ (dow_samples (List.replicate 14 (0 : ℚ)) 0) /
      meanQ (List.replicate 14 (0 : ℚ))) ≠ 1 := by
  have hrep : List.replicate 14 (0 : ℚ) = [0, 0, 0, 0, 0, 0, 0, 0, 0, 0, 0, 0, 0, 0] := rfl
  have hds : dow_samples (List.replicate 14 (0 : ℚ)) 0 = [0, 0] := by rw [hrep]; rfl
  have hm0 : meanQ (List.replicate 14 (0 : ℚ)) = 0 := by rw [hrep]; norm_num [meanQ]
  refine ⟨by rw [hds]; decide, ?_, ?_⟩
  · unfold calculate_seasonality_adjustment
    rw [cacheFind_nil]
    dsimp only
    rw [if_neg (by rw [hrep]; norm_num), if_pos (by rw [hds]; decide),
      if_neg (by rw [hm0]; norm_num)]
  · rw [hds, hm0]
    norm_num [meanQ, clampQ, min_def, max_def]

/-- C5 amended: a cached key is returned as-is; on a miss with at least 14
records, the factor is the clamped same-weekday ratio — cached and returned
by every later call for that key — when at least 2 same-weekday samples
exist AND the overall window mean is positive, and 1.0 with the cache left
unchanged otherwise. -/
theorem c5_seasonal_spec :
    ∀ (cache : SeasonalCache) (drug_id : ℕ) (dow : Fin 7) (w : List ℚ),
      (∀ v : ℚ, cacheFind cache (drug_id, dow.val) = some v →
        calculate_seasonality_adjustment cache drug_id dow w = (v, cache)) ∧
      (cacheFind cache (drug_id, dow.val) = none → 14 ≤ w.length →
        (2 ≤ (dow_samples w dow).length ∧ 0 < meanQ w →
          (calculate_seasonality_adjustment cache drug_id dow w =
            (clampQ 0.8 1.2 (meanQ (dow_samples w dow) / meanQ w),
             ((drug_id, dow.val), clampQ 0.8 1.2 (meanQ (dow_samples w dow) / meanQ w)) :: cache)) ∧
          ∀ w2 : List ℚ,
            calculate_seasonality_adjustment
              (((drug_id, dow.val), clampQ 0.8 1.2 (meanQ (dow_samples w dow) / meanQ w)) :: cache)
              drug_id dow w2 =
            (clampQ 0.8 1.2 (meanQ (dow_samples w dow) / meanQ w),
             ((drug_id, dow.val), clampQ 0.8 1.2 (meanQ (dow_samples w dow) / meanQ w)) :: cache)) ∧
        (¬(2 ≤ (dow_samples w dow).length ∧ 0 < meanQ w) →
          calculate_seasonality_adjustment cache drug_id dow w = (1, cache))) := by
  intro cache drug_id dow w
  have hhit : ∀ (c2 : SeasonalCache) (w2 : List ℚ) (v : ℚ),
      cacheFind c2 (drug_id, dow.val) = some v →
      calculate_seasonality_adjustment c2 drug_id dow w2 = (v, c2) := by
    intro c2 w2 v hv
    unfold calculate_seasonality_adjustment
    rw [hv]
  refine ⟨fun v hv => hhit cache w v hv, ?_⟩
  intro hnone hlen
  constructor
  · intro h
    constructor
    · unfold calculate_seasonality_adjustment
      rw [hnone]
      dsimp only
      rw [if_neg (by omega), if_pos h.1, if_pos h.2]
    · intro w2
      exact hhit _ w2 _ (cacheFind_cons_self _ _ _)
  · intro h
    unfold calculate_seasonality_adjustment
    rw [hnone]
    dsimp only
    rw [if_neg (by omega)]
    by_cases h2 : 2 ≤ (dow_samples w dow).length
    · rw [if_pos h2, if_neg (by intro hpos; exact h ⟨h2, hpos⟩)]
    · rw [if_neg h2]

/-- Witness for C5: the amended behaviour instantiated on the Scenario-A
window for a Monday, where the clamped factor is computed and cached. -/
theorem c5_witness :
    cacheFind [] (1, (0 : Fin 7).val) = none ∧
    14 ≤ ([10, 12, 11, 13, 9, 14, 10, 5, 5, 6, 5, 5, 6, 5] : List ℚ).length ∧
    2 ≤ (dow_samples [10, 12, 11, 13, 9, 14, 10, 5, 5, 6, 5, 5, 6, 5] 0).length ∧
    0 < meanQ [10, 12, 11, 13, 9, 14, 10, 5, 5, 6, 5, 5, 6, 5] ∧
    calculate_seasonality_adjustment [] 1 0 [10, 12, 11, 13, 9, 14, 10, 5, 5, 6, 5, 5, 6, 5] =
      (clampQ 0.8 1.2 (meanQ (dow_samples [10, 12, 11, 13, 9, 14, 10, 5, 5, 6, 5, 5, 6, 5] 0) /
         meanQ [10, 12, 11, 13, 9, 14, 10, 5, 5, 6, 5, 5, 6, 5]),
       ((1, (0 : Fin 7).val),
         clampQ 0.8 1.2 (meanQ (dow_samples [10, 12, 11, 13, 9, 14, 10, 5, 5, 6, 5, 5, 6, 5] 0) /
           meanQ [10, 12, 11, 13, 9, 14, 10, 5, 5, 6, 5, 5, 6, 5])) :: []) := by
  have hpos : 0 < meanQ [(10 : ℚ), 12, 11, 13, 9, 14, 10, 5, 5, 6, 5, 5, 6, 5] := by
    norm_num [meanQ]
  have h2 : 2 ≤ (dow_samples [10, 12, 11, 13, 9, 14, 10, 5, 5, 6, 5, 5, 6, 5] 0).length := by
    rw [show dow_samples [10, 12, 11, 13, 9, 14, 10, 5, 5, 6, 5, 5, 6, 5] 0 = [10, 5] from rfl]
    norm_num
  exact ⟨rfl, by norm_num, h2, hpos,
    (((c5_seasonal_spec [] 1 0 [10, 12, 11, 13, 9, 14, 10, 5, 5, 6, 5, 5, 6, 5]).2
      rfl (by norm_num)).1 ⟨h2, hpos⟩).1⟩

theorem filter_age_eq (hist : List UsageRecord)
    (H : ∀ r ∈ hist, r.age ≤ 30 → r.age ≤ 14) :
    (hist.filter fun r => r.age ≤ 14) = hist.filter fun r => r.age ≤ 30 := by
  apply List.filter_congr
  intro r hr
  by_cases h : r.age ≤ 30
  · have h14 := H r hr h
    simp [h, h14]
  · have h14 : ¬ r.age ≤ 14 := fun hle => h (le_trans hle (by norm_num))
    simp [h, h14]

theorem usage_values_single_length (hist : List UsageRecord) :
    (usage_values_single hist).length = 14 := by
  unfold usage_values_single
  dsimp only
  split
  · simp
  · rw [List.length_append, List.length_replicate]
    have h : (get_recent_usage hist 14).length ≤ 14 := by
      unfold get_recent_usage
      rw [List.length_take]
      exact min_le_left _ _
    omega

/-- When the 30-day window holds no record older than the 14-day window the
two paths prepare the same padded usage series. -/
theorem usage_values_agree (hist : List UsageRecord)
    (H : ∀ r ∈ hist, r.age ≤ 30 → r.age ≤ 14) :
    usage_values_single hist = usage_values_batch (get_recent_usage_batch hist 30) := by
  unfold usage_values_single usage_values_batch get_recent_usage get_recent_usage_batch
  rw [filter_age_eq hist H]
  dsimp only
  set L := (hist.filter fun r => r.age ≤ 30).map (·.qty) with hL
  by_cases hemp : L.isEmpty
  · have hnil : L = [] := List.isEmpty_iff.mp hemp
    rw [hnil]
    rfl
  · have htk : (L.take 14).isEmpty = false := by
      cases hc : L with
      | nil => rw [hc] at hemp; exact absurd rfl hemp
      | cons a t => rfl
    rw [if_neg (by rw [htk]; exact Bool.false_ne_true), if_neg (by
      intro hc
      exact absurd hc hemp)]
    by_cases hlen : L.length ≤ 14
    · rw [List.take_of_length_le hlen]
    · have h14 : (L.take 14).length = 14 := by
        rw [List.length_take]
        omega
      rw [h14]
      simp

/-- When the 30-day window holds no record older than the 14-day window the
two paths build the same feature vector. -/
theorem prepare_features_agree (hist : List UsageRecord)
    (H : ∀ r ∈ hist, r.age ≤ 30 → r.age ≤ 14) (d : PyDate) :
    prepare_features hist d =
      prepare_features_batch (usage_values_batch (get_recent_usage_batch hist 30)) d := by
  have hu := usage_values_agree hist H
  have hlen := usage_values_single_length hist
  unfold prepare_features prepare_features_batch
  rw [← hu]
  dsimp only
  have hget : (usage_values_single hist).getD 0 0 = (usage_values_single hist).getD 0 30 := by
    cases hc : usage_values_single hist with
    | nil => rw [hc] at hlen; simp at hlen
    | cons a t => rfl
  rw [hget]
  simp only [hlen]
  norm_num

theorem mapFind_single (k : ℕ) (v : Model) : mapFind [(k, v)] k = some v := by
  unfold mapFind
  rw [List.find?_cons_of_pos _ (by simp)]
  rfl

/-- C1 counterexample: for the history with one record 1 day old and one 20
days old, the two paths build different feature vectors (`usage_lag_3` is 10
on the single path, from padding with the 14-day mean, and 15 on the batch
path, from the real older record and the 30-day padding mean), and for the
model that reads `usage_lag_3` the emitted RawPredictions differ: 10 versus
15. -/
theorem c1_counterexample :
    prepare_features histMixed dateMon ≠
      prepare_features_batch (usage_values_batch (get_recent_usage_batch histMixed 30)) dateMon ∧
    (predict_demand [(1, modelLag3)] histMixed dAtMon 1 1).map
      (List.map (·.predicted_demand)) = some [10] ∧
    (predict_all_drugs_adaptive [(1, modelLag3)] (fun _ => histMixed) (fun _ => 0) dAtMon 1).map
      (fun e => e.2.points.map (·.base_prediction)) = [[15]] := by
  have hA : (prepare_features histMixed dateMon).usage_lag_3 = meanQ [10] := rfl
  have hB : (prepare_features_batch (usage_values_batch (get_recent_usage_batch histMixed 30))
      dateMon).usage_lag_3 = meanQ [10, 20] := rfl
  have hmA : meanQ [(10 : ℚ)] = 10 := by norm_num [meanQ]
  have hmB : meanQ [(10 : ℚ), 20] = 15 := by norm_num [meanQ]
  refine ⟨?_, ?_, ?_⟩
  · intro h
    have hc := congrArg Features.usage_lag_3 h
    rw [hA, hB, hmA, hmB] at hc
    norm_num at hc
  · have e1 : (predict_demand [(1, modelLag3)] histMixed dAtMon 1 1).map
        (List.map (·.predicted_demand)) = some [round1 (max 0 (meanQ [10]))] := rfl
    rw [e1, hmA, show max (0 : ℚ) 10 = 10 by norm_num,
      show round1 (10 : ℚ) = 10 by norm_num [round1, pyRound]]
  · have e2 : (predict_all_drugs_adaptive [(1, modelLag3)] (fun _ => histMixed) (fun _ => 0)
        dAtMon 1).map (fun e => e.2.points.map (·.base_prediction)) =
        [[round1 (max 0 (meanQ [10, 20]))]] := rfl
    rw [e2, hmB, show max (0 : ℚ) 15 = 15 by norm_num,
      show round1 (15 : ℚ) = 15 by norm_num [round1, pyRound]]

/-- C1 amended: the two paths build identical feature vectors — including
the padding case — and emit identical RawPrediction values for every model
and horizon day, *provided* every record of the 30-day batch window also
lies inside the single path's 14-day window; with records 15–30 days old
the windows differ and so do the feature vectors (see the counterexample). -/
theorem c1_paths_agree :
    ∀ hist : List UsageRecord,
      (∀ r ∈ hist, r.age ≤ 30 → r.age ≤ 14) →
      (∀ d : PyDate,
        prepare_features hist d =
          prepare_features_batch (usage_values_batch (get_recent_usage_batch hist 30)) d) ∧
      (∀ (drug_id : ℕ) (model : Model) (allStock : ℕ → ℚ) (dateAt : ℕ → PyDate)
         (days : ℕ) (base : List BasePoint),
        predict_demand [(drug_id, model)] hist dateAt drug_id days = some base →
        (predict_all_drugs_adaptive [(drug_id, model)] (fun _ => hist) allStock dateAt
          days).map (fun e => e.2.points.map (·.base_prediction)) =
          [base.map (·.predicted_demand)]) := by
  intro hist H
  refine ⟨prepare_features_agree hist H, ?_⟩
  intro drug_id model allStock dateAt days base hb
  unfold predict_demand at hb
  rw [mapFind_single] at hb
  dsimp only at hb
  rw [Option.some.injEq] at hb
  unfold predict_all_drugs_adaptive
  simp only [List.map_cons, List.map_nil]
  rw [← hb]
  simp only [List.map_map]
  congr 1
  apply List.map_congr_left
  intro i hi
  dsimp only [Function.comp]
  rw [prepare_features_agree hist H (dateAt i)]

/-- Witness for C1: a one-record history inside the 14-day window — the
padding case — on which both paths agree, for a concrete constant model. -/
theorem c1_witness :
    prepare_features histRecent dateMon =
      prepare_features_batch (usage_values_batch (get_recent_usage_batch histRecent 30)) dateMon ∧
    (predict_all_drugs_adaptive [(1, modelConst)] (fun _ => histRecent) (fun _ => 0) dAtMon 1).map
      (fun e => e.2.points.map (·.base_prediction)) = [[1]] := by
  have hb : predict_demand [(1, modelConst)] histRecent dAtMon 1 1 =
      some [{ dayIndex := 0, predicted_demand := 1, weekday := 0 }] := by
    norm_num [predict_demand, mapFind, modelConst, round1, pyRound, List.range_succ,
      dAtMon, dateMon]
  exact ⟨(c1_paths_agree histRecent (by decide)).1 dateMon,
    (c1_paths_agree histRecent (by decide)).2 1 modelConst (fun _ => 0) dAtMon 1 _ hb⟩

end Pharma
